import Mathlib

/-!
Shallow embedding of the wallet-attendance-system server (`src/app.py`).

The embedding covers the parts of the program the verified claims are
about: base-58 decoding and signature verification (`verify_signature`),
time-slot quantisation and challenge construction (`get_time_slot`,
`generate_qr_data`), employee registration (`api_register`), and the
attendance endpoint (`api_attendance`, POST branch), including its
verification pipeline, the replay-guard lookup over the module-level
`recent_qr_usage` dictionary, and the per-day check-in/check-out state
machine over the attendance ledger.

The Ed25519 primitive itself is kept abstract: `verify_signature` and
`generate_qr_data` are parametrised by the raw verification oracle
(`List Nat → String → List Nat → Bool`, taking the decoded public-key
bytes, the message string and the decoded signature bytes) respectively by
the signing function.  Everything around the primitive — decoding, the
32-byte public-key length requirement of `Ed25519PublicKey.from_public_bytes`,
the error normalisation to `False`, and the whole request pipeline — is
translated directly from the source.

Python `dict`s (insertion-ordered) are modelled as association lists, the
attendance ledger (a JSON array) as a list of records, and wall-clock
reads (`time.time()`, `datetime.now()`) as explicit parameters: `now` in
epoch seconds plus the formatted date/time/iso strings derived from the
same instant.
-/

namespace WalletAttendance

/-- `INTERVAL = 10` — QR refresh rate in seconds (src/app.py line 24). -/
def INTERVAL : Nat := 10

/-- `QR_GRACE_PERIOD = 30` — seconds a QR code stays valid (line 25). -/
def QR_GRACE_PERIOD : Int := 30

/-- `QR_REUSE_WINDOW = 300` — replay-prevention window in seconds (line 26). -/
def QR_REUSE_WINDOW : Int := 300

/-- The base-58 alphabet used by the `base58` library (Bitcoin alphabet). -/
def B58_ALPHABET : List Char :=
  "123456789ABCDEFGHJKLMNPQRSTUVWXYZabcdefghijkmnopqrstuvwxyz".toList

/-- Value of one base-58 digit character; `none` when the character is not
in the alphabet (such input makes `base58.b58decode` raise). -/
def b58digit (c : Char) : Option Nat :=
  B58_ALPHABET.findIdx? (· == c)

/-- Big-endian bytes of a natural number (fuel-indexed so it reduces by
kernel computation); `natToBytes 0 = []`, matching the empty byte string. -/
def natToBytesAux : Nat → Nat → List Nat
  | 0, _ => []
  | fuel + 1, n => if n = 0 then [] else natToBytesAux fuel (n / 256) ++ [n % 256]

def natToBytes (n : Nat) : List Nat := natToBytesAux n n

/-- `base58.b58decode`: `none` models the exception on a character outside
the alphabet; otherwise the decoded bytes (one leading zero byte per
leading `'1'`, then the big-endian digits of the accumulated value). -/
def b58decode (s : String) : Option (List Nat) :=
  let cs := s.toList
  match cs.mapM b58digit with
  | none => none
  | some ds =>
    let n := ds.foldl (fun a d => a * 58 + d) 0
    let lead := (cs.takeWhile (· == '1')).length
    some (List.replicate lead 0 ++ natToBytes n)

/-- `verify_signature(public_key_b58, message, signature_b58)`
(src/app.py lines 106–119).  The `try`/`except` catching
`(InvalidSignature, Exception)` normalises every failure to `False`:
a bad base-58 public key or signature, a public key that is not exactly
32 bytes (`Ed25519PublicKey.from_public_bytes` raises otherwise), and a
cryptographic mismatch (the oracle returning `false`). -/
def verify_signature (verifyRaw : List Nat → String → List Nat → Bool)
    (public_key_b58 : String) (message : String) (signature_b58 : String) : Bool :=
  match b58decode public_key_b58 with
  | none => false
  | some public_bytes =>
    if public_bytes.length = 32 then
      match b58decode signature_b58 with
      | none => false
      | some signature_bytes => verifyRaw public_bytes message signature_bytes
    else false

/-- `get_time_slot()` (lines 164–166): current time rounded down to a
multiple of `INTERVAL`, with the current epoch seconds as parameter. -/
def get_time_slot (now : Nat) : Nat :=
  now / INTERVAL * INTERVAL

/-- The payload encoded into the QR code (lines 175–180); also the shape
of the `server_qr` object a client submits back.  `timestamp` is `Int`
because the submitted value is attacker-controlled (default `0`). -/
structure QRData where
  message : String
  signature : String
  timestamp : Int
  server_public_key : String
deriving DecidableEq, Repr

/-- `generate_qr_data()` (lines 169–181), with the server signing function
and the server public key as parameters and `now` the epoch-seconds clock. -/
def generate_qr_data (signMsg : String → String) (server_public_key_b58 : String)
    (now : Nat) : QRData :=
  let timestamp := get_time_slot now
  let message := "attendance:" ++ toString timestamp ++ ":" ++ server_public_key_b58
  { message := message
    signature := signMsg message
    timestamp := (timestamp : Int)
    server_public_key := server_public_key_b58 }

/-- Python `str.strip()` whitespace test (ASCII part). -/
def isPySpace (c : Char) : Bool :=
  c == ' ' || c == '\t' || c == '\n' || c == '\r' || c == '\x0b' || c == '\x0c'

/-- Python `str.strip()`: drop leading and trailing whitespace. -/
def pyStrip (s : String) : String :=
  String.mk (((s.toList.dropWhile isPySpace).reverse.dropWhile isPySpace).reverse)

/-- One employee profile as stored in `employees.json` (lines 1474–1480). -/
structure Employee where
  name : String
  email : String
  department : String
  public_key : String
  registered_at : String
deriving DecidableEq, Repr

/-- The employee registry: Python dict `emp_id → profile`, insertion-ordered. -/
abbrev Employees := List (String × Employee)

/-- Result of `/api/register` (lines 1459–1494), by response shape. -/
inductive RegisterResult where
  | missingFields
  | duplicate (emp_id : String)
  | registered (emp_id name public_key private_key : String)
deriving DecidableEq, Repr

/-- The `message` field of the `/api/register` JSON response. -/
def RegisterResult.message : RegisterResult → String
  | .missingFields => "Employee ID and Name are required"
  | .duplicate emp_id => "Employee " ++ emp_id ++ " already registered"
  | .registered _ name _ _ => "Employee " ++ name ++ " registered successfully"

/-- The `success` field of the `/api/register` JSON response. -/
def RegisterResult.success : RegisterResult → Bool
  | .missingFields => false
  | .duplicate _ => false
  | .registered _ _ _ _ => true

/-- `api_register()` (lines 1450–1494).  The generated key pair
(`generate_ed25519_keypair`, a fresh random pair in the source) and the
`datetime.now().isoformat()` string are parameters; the function returns
the response together with the registry it persists. -/
def api_register (employees : Employees)
    (emp_id_raw name_raw email_raw department_raw : String)
    (keypair : String × String) (registered_at : String) :
    RegisterResult × Employees :=
  let emp_id := pyStrip emp_id_raw
  let name := pyStrip name_raw
  let email := pyStrip email_raw
  let department := pyStrip department_raw
  if emp_id = "" ∨ name = "" then
    (.missingFields, employees)
  else if (employees.find? (fun p => p.1 == emp_id)).isSome then
    (.duplicate emp_id, employees)
  else
    let private_key_b58 := keypair.1
    let public_key_b58 := keypair.2
    (.registered emp_id name public_key_b58 private_key_b58,
     employees ++ [(emp_id,
       { name := name, email := email, department := department,
         public_key := public_key_b58, registered_at := registered_at })])

/-- One attendance ledger record (lines 1620–1631). -/
structure AttendanceRecord where
  emp_id : String
  employee_name : String
  date : String
  in_time : String
  in_timestamp : String
  out_time : Option String
  out_timestamp : Option String
  status : String
  qr_timestamp : Int
  verified : Bool
deriving DecidableEq, Repr

/-- The process-wide `recent_qr_usage` dict (line 39):
`emp_id → (time slot → wall-clock timestamp of last use)`. -/
abbrev QrUsage := List (String × List (Nat × Nat))

/-- The mutable server state an `/api/attendance` POST reads and writes:
the persisted employee registry and attendance ledger, plus the in-memory
replay map. -/
structure ServerState where
  employees : Employees
  attendance : List AttendanceRecord
  recent_qr_usage : QrUsage
deriving DecidableEq, Repr

/-- The JSON body of an `/api/attendance` POST (lines 1506–1509 and 1555,
1580).  `server_qr = none` models a missing or empty `server_qr` object. -/
structure AttendanceRequest where
  server_qr : Option QRData
  public_key : String
  employee_signature : String
  confirm_checkout : Bool
deriving DecidableEq, Repr

/-- Result of an `/api/attendance` POST, one constructor per distinct
`jsonify` response of the source, carrying the response fields that vary. -/
inductive AttendanceResult where
  | missingData
  | unknownEmployee
  | wrongServer
  | invalidQRSignature
  | qrExpired (age : Int)
  | alreadyUsed
  | invalidEmployeeSignature
  | checkOut (employee_name in_time out_time : String)
  | pendingCheckout (employee_name in_time out_time : String)
  | alreadyCheckedOut (employee_name in_time out_time : String)
  | checkIn (employee_name in_time : String)
deriving DecidableEq, Repr

/-- The `message` field of each `/api/attendance` response, with the exact
strings of the source. -/
def AttendanceResult.message : AttendanceResult → String
  | .missingData => "Missing required data"
  | .unknownEmployee => "Employee not registered or invalid key"
  | .wrongServer => "Invalid QR code - wrong server"
  | .invalidQRSignature => "Invalid QR code signature"
  | .qrExpired age => "QR code expired (age: " ++ toString age ++ "s)"
  | .alreadyUsed => "QR code already used recently"
  | .invalidEmployeeSignature => "Invalid employee signature"
  | .checkOut _ _ _ => "Check-out successful"
  | .pendingCheckout _ _ _ => "Confirm check-out"
  | .alreadyCheckedOut _ _ _ => "Already checked out today"
  | .checkIn _ _ => "Check-in successful"

/-- The `success` field of each `/api/attendance` response. -/
def AttendanceResult.success : AttendanceResult → Bool
  | .checkOut _ _ _ => true
  | .checkIn _ _ => true
  | _ => false

/-- The `action` field of each `/api/attendance` response (absent except
on the two success responses). -/
def AttendanceResult.action : AttendanceResult → Option String
  | .checkOut _ _ _ => some "check-out"
  | .checkIn _ _ => some "check-in"
  | _ => none

/-- The employee-lookup loop (lines 1519–1523): first registry entry whose
stored `public_key` equals the submitted one. -/
def findEmployee (employees : Employees) (pk : String) : Option (String × Employee) :=
  employees.find? (fun p => p.2.public_key == pk)

/-- The record-lookup loop (lines 1572–1576): first ledger record for this
employee and calendar day. -/
def recordMatches (emp_id date : String) (r : AttendanceRecord) : Bool :=
  r.emp_id == emp_id && r.date == date

/-- Replace the first element satisfying `p` — the effect of Python
mutating the aliased dict found by a `for`/`break` loop and saving the list. -/
def updateFirst (p : α → Bool) (f : α → α) : List α → List α
  | [] => []
  | x :: xs => if p x then f x :: xs else x :: updateFirst p f xs

/-- The replay-guard lookup (lines 1555–1558): `emp_id in recent_qr_usage`
and `time_slot in recent_qr_usage[emp_id]`. -/
def usageLookup (usage : QrUsage) (emp_id : String) (slot : Nat) : Option Nat :=
  match usage.find? (fun p => p.1 == emp_id) with
  | none => none
  | some (_, slots) => ((slots.find? (fun q => q.1 == slot)).map (·.2))

/-- The replay-guard hit test (lines 1555–1561): an entry for this employee
and slot exists and is younger than `QR_REUSE_WINDOW`. -/
def replay_hit (usage : QrUsage) (emp_id : String) (slot : Nat) (now : Nat) : Bool :=
  match usageLookup usage emp_id slot with
  | some last_used => decide ((now : Int) - (last_used : Int) < QR_REUSE_WINDOW)
  | none => false

/-- The in-place check-out mutation (lines 1582–1584). -/
def checkoutUpdate (timeStr isoStr : String) (r : AttendanceRecord) : AttendanceRecord :=
  { r with out_time := some timeStr, out_timestamp := some isoStr, status := "Present" }

/-- The ledger after the check-out mutation of the record found by the
lookup loop (lines 1572–1585): the first (unique) record of this employee
and day gets its `out_time`/`out_timestamp`/`status` fields set. -/
def checkoutLedger (emp_id dateStr timeStr isoStr : String)
    (l : List AttendanceRecord) : List AttendanceRecord :=
  updateFirst (recordMatches emp_id dateStr) (checkoutUpdate timeStr isoStr) l

/-- The fresh check-in record (lines 1620–1631). -/
def checkInRecord (emp_id employee_name dateStr timeStr isoStr : String)
    (qr_timestamp : Int) : AttendanceRecord :=
  { emp_id := emp_id, employee_name := employee_name, date := dateStr,
    in_time := timeStr, in_timestamp := isoStr,
    out_time := none, out_timestamp := none, status := "Present",
    qr_timestamp := qr_timestamp, verified := true }

/-- The state machine run after all verification steps pass
(lines 1567–1642).  NOTE: the `recent_qr_usage` write of the source
(lines 1644–1647, "Track QR usage") sits after the `return` statements of
both branches and is therefore unreachable; the embedding reflects the
reachable behaviour, in which the replay map is never written. -/
def mark_attendance (emp_id : String) (employee : Employee) (qr : QRData)
    (confirm : Bool) (st : ServerState) (dateStr timeStr isoStr : String) :
    AttendanceResult × ServerState :=
  match st.attendance.find? (recordMatches emp_id dateStr) with
  | some existing =>
    match existing.out_time with
    | none =>
      if confirm then
        let attendance := checkoutLedger emp_id dateStr timeStr isoStr st.attendance
        (.checkOut employee.name existing.in_time timeStr,
         { st with attendance := attendance })
      else
        (.pendingCheckout employee.name existing.in_time timeStr, st)
    | some out_t =>
      (.alreadyCheckedOut employee.name existing.in_time out_t, st)
  | none =>
    let attendance := st.attendance ++
      [checkInRecord emp_id employee.name dateStr timeStr isoStr qr.timestamp]
    (.checkIn employee.name timeStr, { st with attendance := attendance })

/-- The POST branch of `api_attendance()` (lines 1505–1647): the
verification pipeline with its early returns, then the state machine.
Parameters: the Ed25519 oracle, the server public key (module-level
`server_public_key_b58`), the state read at entry, the request body,
`now = int(time.time())`, and the `datetime.now()` renderings
(`%Y-%m-%d` date, `%H:%M:%S` time, `isoformat()`). -/
def api_attendance_post (verifyRaw : List Nat → String → List Nat → Bool)
    (server_public_key_b58 : String) (st : ServerState) (req : AttendanceRequest)
    (now : Nat) (dateStr timeStr isoStr : String) :
    AttendanceResult × ServerState :=
  let employee_public_key := pyStrip req.public_key
  match req.server_qr with
  | none => (.missingData, st)
  | some qr =>
    if employee_public_key = "" ∨ req.employee_signature = "" then
      (.missingData, st)
    else
      match findEmployee st.employees employee_public_key with
      | none => (.unknownEmployee, st)
      | some (emp_id, employee) =>
        if qr.server_public_key ≠ server_public_key_b58 then
          (.wrongServer, st)
        else if verify_signature verifyRaw server_public_key_b58 qr.message qr.signature
            = false then
          (.invalidQRSignature, st)
        else
          let time_diff : Int := (now : Int) - qr.timestamp
          if time_diff > QR_GRACE_PERIOD ∨ time_diff < -QR_GRACE_PERIOD then
            (.qrExpired time_diff, st)
          else if req.confirm_checkout = false ∧
              replay_hit st.recent_qr_usage emp_id (get_time_slot now) now = true then
            (.alreadyUsed, st)
          else if verify_signature verifyRaw employee_public_key qr.message
              req.employee_signature = false then
            (.invalidEmployeeSignature, st)
          else
            mark_attendance emp_id employee qr req.confirm_checkout st dateStr timeStr isoStr

/-- Two ledger records cover the same (identity, day) key. -/
def sameKey (r s : AttendanceRecord) : Prop :=
  r.emp_id = s.emp_id ∧ r.date = s.date

/-- "At most one record per (identity, date)": pairwise distinct keys. -/
def UniqueKeys (l : List AttendanceRecord) : Prop :=
  l.Pairwise (fun r s => ¬ sameKey r s)

/-- Attendance ledgers reachable by the protocol: the empty ledger
(`attendance.json` starts as `[]`), closed under one `/api/attendance`
POST with arbitrary oracle, server key, registry, replay-map contents,
request and clock.  (The registry and replay map are over-approximated as
arbitrary at each step, which only enlarges the reachable set.) -/
inductive ReachableAttendance : List AttendanceRecord → Prop where
  | init : ReachableAttendance []
  | step (a : List AttendanceRecord) (verifyRaw : List Nat → String → List Nat → Bool)
      (spk : String) (employees : Employees) (usage : QrUsage)
      (req : AttendanceRequest) (now : Nat) (dateStr timeStr isoStr : String) :
      ReachableAttendance a →
      ReachableAttendance
        (api_attendance_post verifyRaw spk ⟨employees, a, usage⟩
          req now dateStr timeStr isoStr).2.attendance

/-- All six verification steps of the pipeline pass for this submission:
`server_qr` present and fields non-blank, employee resolved by public key,
server key matches, server signature valid, challenge fresh, replay guard
passed (or skipped by `confirm_checkout`), holder signature valid. -/
def VerifiedSubmission (verifyRaw : List Nat → String → List Nat → Bool)
    (spk : String) (employees : Employees) (usage : QrUsage)
    (req : AttendanceRequest) (qr : QRData)
    (emp_id : String) (employee : Employee) (now : Nat) : Prop :=
  req.server_qr = some qr ∧
  pyStrip req.public_key ≠ "" ∧
  req.employee_signature ≠ "" ∧
  findEmployee employees (pyStrip req.public_key) = some (emp_id, employee) ∧
  qr.server_public_key = spk ∧
  verify_signature verifyRaw spk qr.message qr.signature = true ∧
  ¬((now : Int) - qr.timestamp > QR_GRACE_PERIOD ∨
    (now : Int) - qr.timestamp < -QR_GRACE_PERIOD) ∧
  (req.confirm_checkout = true ∨
   replay_hit usage emp_id (get_time_slot now) now = false) ∧
  verify_signature verifyRaw (pyStrip req.public_key) qr.message
    req.employee_signature = true

/-! ### Concrete test fixture

An always-accepting signature oracle and a registered employee, used to
exercise the pipeline at concrete inputs (witnesses and the replay-guard
counterexample run). -/

/-- A concrete instantiation of the Ed25519 oracle that accepts every
(key, message, signature) triple — the pipeline around it is what the
concrete runs exercise. -/
def demoVerify : List Nat → String → List Nat → Bool := fun _ _ _ => true

/-- A base-58 public key decoding to 32 zero bytes. -/
def demoPk : String := "11111111111111111111111111111111"

/-- A second, distinct base-58 key decoding to 32 bytes, used as server key. -/
def demoSpk : String := "11111111111111111111111111111112"

def demoEmployee : Employee :=
  { name := "Alice", email := "", department := "", public_key := demoPk,
    registered_at := "2026-01-01T00:00:00" }

/-- A challenge for slot 1000 signed by the demo server. -/
def demoQr : QRData :=
  { message := "attendance:1000:" ++ demoSpk, signature := "2",
    timestamp := 1000, server_public_key := demoSpk }

/-- Initial server state: one registered employee, empty ledger, empty
replay map (the module-level `recent_qr_usage = {}`). -/
def demoSt0 : ServerState :=
  { employees := [("E1", demoEmployee)], attendance := [], recent_qr_usage := [] }

/-- A plain submission of the slot-1000 challenge, no `confirm_checkout`. -/
def demoReq : AttendanceRequest :=
  { server_qr := some demoQr, public_key := demoPk, employee_signature := "2",
    confirm_checkout := false }

/-- The same submission with `confirm_checkout = true`. -/
def demoReqConfirm : AttendanceRequest :=
  { demoReq with confirm_checkout := true }

/-- A replay map holding a fresh entry for the demo employee and slot 1000
— exactly what would block a non-confirm resubmission. -/
def demoUsageHit : QrUsage := [("E1", [(1000, 1005)])]

/-- The state after the first successful demo submission (at `t = 1005`,
inside slot 1000 and the grace window). -/
def demoSt1 : ServerState :=
  (api_attendance_post demoVerify demoSpk demoSt0 demoReq
    1005 "2026-10-12" "10:00:05" "2026-10-12T10:00:05").2

/-- The demo challenge rebranded with a foreign server key. -/
def demoQrWrong : QRData :=
  { demoQr with server_public_key := demoPk }

/-- A submission carrying the foreign-server challenge. -/
def demoReqWrong : AttendanceRequest :=
  { demoReq with server_qr := some demoQrWrong }

/-! ### Ledger list lemmas -/

theorem updateFirst_of_find?_none {α : Type} {p : α → Bool} {f : α → α} {l : List α}
    (h : l.find? p = none) : updateFirst p f l = l := by
  induction l with
  | nil => rfl
  | cons x xs ih =>
    rw [List.find?_eq_none] at h
    have hx : p x = false := by simpa using h x (by simp)
    unfold updateFirst
    rw [if_neg (by simp [hx])]
    rw [ih (List.find?_eq_none.mpr fun y hy => h y (by simp [hy]))]

theorem mem_updateFirst {α : Type} {p : α → Bool} {f : α → α} {l : List α} {s : α}
    (h : s ∈ updateFirst p f l) : s ∈ l ∨ ∃ x ∈ l, p x = true ∧ s = f x := by
  induction l with
  | nil => simp [updateFirst] at h
  | cons x xs ih =>
    unfold updateFirst at h
    by_cases hx : p x = true
    · rw [if_pos hx] at h
      rcases List.mem_cons.mp h with h1 | h1
      · exact Or.inr ⟨x, by simp, hx, h1⟩
      · exact Or.inl (List.mem_cons_of_mem _ h1)
    · rw [if_neg hx] at h
      rcases List.mem_cons.mp h with h1 | h1
      · exact Or.inl (by simp [h1])
      · rcases ih h1 with h2 | ⟨y, hy, hpy, hs⟩
        · exact Or.inl (List.mem_cons_of_mem _ h2)
        · exact Or.inr ⟨y, List.mem_cons_of_mem _ hy, hpy, hs⟩

theorem find?_updateFirst {α : Type} {p : α → Bool} {f : α → α} {l : List α} {x : α}
    (h : l.find? p = some x) (hf : p (f x) = true) :
    (updateFirst p f l).find? p = some (f x) := by
  induction l with
  | nil => simp at h
  | cons y ys ih =>
    by_cases hy : p y = true
    · rw [List.find?_cons_of_pos _ hy] at h
      injection h with h
      subst h
      unfold updateFirst
      rw [if_pos hy, List.find?_cons_of_pos _ hf]
    · rw [List.find?_cons_of_neg _ hy] at h
      unfold updateFirst
      rw [if_neg hy, List.find?_cons_of_neg _ hy]
      exact ih h

theorem exists_same_key_updateFirst {p : AttendanceRecord → Bool}
    {f : AttendanceRecord → AttendanceRecord}
    (hf : ∀ r, (f r).emp_id = r.emp_id ∧ (f r).date = r.date)
    {l : List AttendanceRecord} {r : AttendanceRecord} (hr : r ∈ l) :
    ∃ s ∈ updateFirst p f l, s.emp_id = r.emp_id ∧ s.date = r.date := by
  induction l with
  | nil => simp at hr
  | cons x xs ih =>
    unfold updateFirst
    by_cases hx : p x = true
    · rw [if_pos hx]
      rcases List.mem_cons.mp hr with rfl | h1
      · exact ⟨f r, by simp, (hf r).1, (hf r).2⟩
      · exact ⟨r, by simp [h1], rfl, rfl⟩
    · rw [if_neg hx]
      rcases List.mem_cons.mp hr with rfl | h1
      · exact ⟨r, by simp, rfl, rfl⟩
      · rcases ih h1 with ⟨s, hs, h2⟩
        exact ⟨s, List.mem_cons_of_mem _ hs, h2⟩

theorem uniqueKeys_updateFirst {p : AttendanceRecord → Bool}
    {f : AttendanceRecord → AttendanceRecord}
    (hf : ∀ r, (f r).emp_id = r.emp_id ∧ (f r).date = r.date)
    {l : List AttendanceRecord} (h : UniqueKeys l) :
    UniqueKeys (updateFirst p f l) := by
  induction l with
  | nil => simpa [updateFirst] using h
  | cons x xs ih =>
    rcases List.pairwise_cons.mp h with ⟨hx, hxs⟩
    unfold updateFirst
    by_cases hpx : p x = true
    · rw [if_pos hpx]
      refine List.pairwise_cons.mpr ⟨?_, hxs⟩
      intro y hy
      have hk := hx y hy
      unfold sameKey at hk ⊢
      rw [(hf x).1, (hf x).2]
      exact hk
    · rw [if_neg hpx]
      refine List.pairwise_cons.mpr ⟨?_, ih hxs⟩
      intro y hy
      rcases mem_updateFirst hy with h1 | ⟨z, hz, _, rfl⟩
      · exact hx y h1
      · have hk := hx z hz
        unfold sameKey at hk ⊢
        rw [(hf z).1, (hf z).2]
        exact hk

theorem checkoutUpdate_key (timeStr isoStr : String) (r : AttendanceRecord) :
    (checkoutUpdate timeStr isoStr r).emp_id = r.emp_id ∧
    (checkoutUpdate timeStr isoStr r).date = r.date := ⟨rfl, rfl⟩

theorem recordMatches_iff {emp_id dateStr : String} {r : AttendanceRecord} :
    recordMatches emp_id dateStr r = true ↔ (r.emp_id = emp_id ∧ r.date = dateStr) := by
  simp [recordMatches]

/-! ### Branch lemmas for the state machine -/

theorem mark_attendance_no_record {emp_id : String} {employee : Employee} {qr : QRData}
    {confirm : Bool} {st : ServerState} {dateStr timeStr isoStr : String}
    (h : st.attendance.find? (recordMatches emp_id dateStr) = none) :
    mark_attendance emp_id employee qr confirm st dateStr timeStr isoStr =
      (.checkIn employee.name timeStr,
       { st with attendance := st.attendance ++
           [checkInRecord emp_id employee.name dateStr timeStr isoStr qr.timestamp] }) := by
  unfold mark_attendance
  simp only [h]

theorem mark_attendance_pending {emp_id : String} {employee : Employee} {qr : QRData}
    {st : ServerState} {dateStr timeStr isoStr : String} {ex : AttendanceRecord}
    (h : st.attendance.find? (recordMatches emp_id dateStr) = some ex)
    (hout : ex.out_time = none) :
    mark_attendance emp_id employee qr false st dateStr timeStr isoStr =
      (.pendingCheckout employee.name ex.in_time timeStr, st) := by
  unfold mark_attendance
  simp only [h, hout]
  simp

theorem mark_attendance_checkout {emp_id : String} {employee : Employee} {qr : QRData}
    {st : ServerState} {dateStr timeStr isoStr : String} {ex : AttendanceRecord}
    (h : st.attendance.find? (recordMatches emp_id dateStr) = some ex)
    (hout : ex.out_time = none) :
    mark_attendance emp_id employee qr true st dateStr timeStr isoStr =
      (.checkOut employee.name ex.in_time timeStr,
       { st with attendance := checkoutLedger emp_id dateStr timeStr isoStr st.attendance }) := by
  unfold mark_attendance
  simp only [h, hout]
  simp

theorem mark_attendance_closed {emp_id : String} {employee : Employee} {qr : QRData}
    {confirm : Bool} {st : ServerState} {dateStr timeStr isoStr : String}
    {ex : AttendanceRecord} {t : String}
    (h : st.attendance.find? (recordMatches emp_id dateStr) = some ex)
    (hout : ex.out_time = some t) :
    mark_attendance emp_id employee qr confirm st dateStr timeStr isoStr =
      (.alreadyCheckedOut employee.name ex.in_time t, st) := by
  unfold mark_attendance
  simp only [h, hout]

/-! ### Branch lemmas for the verification pipeline -/

theorem post_missing_qr {verifyRaw : List Nat → String → List Nat → Bool}
    {spk : String} {st : ServerState} {req : AttendanceRequest}
    {now : Nat} {dateStr timeStr isoStr : String}
    (h : req.server_qr = none) :
    api_attendance_post verifyRaw spk st req now dateStr timeStr isoStr =
      (.missingData, st) := by
  unfold api_attendance_post
  rw [h]

theorem post_unknown {verifyRaw : List Nat → String → List Nat → Bool}
    {spk : String} {st : ServerState} {req : AttendanceRequest}
    {now : Nat} {dateStr timeStr isoStr : String} {qr : QRData}
    (hqr : req.server_qr = some qr)
    (hpk : pyStrip req.public_key ≠ "") (hsg : req.employee_signature ≠ "")
    (hfound : findEmployee st.employees (pyStrip req.public_key) = none) :
    api_attendance_post verifyRaw spk st req now dateStr timeStr isoStr =
      (.unknownEmployee, st) := by
  unfold api_attendance_post
  simp only [hqr]
  rw [if_neg (by exact not_or.mpr ⟨hpk, hsg⟩)]
  simp only [hfound]

theorem post_wrong_server {verifyRaw : List Nat → String → List Nat → Bool}
    {spk : String} {st : ServerState} {req : AttendanceRequest}
    {now : Nat} {dateStr timeStr isoStr : String} {qr : QRData}
    {emp_id : String} {employee : Employee}
    (hqr : req.server_qr = some qr)
    (hpk : pyStrip req.public_key ≠ "") (hsg : req.employee_signature ≠ "")
    (hfound : findEmployee st.employees (pyStrip req.public_key) = some (emp_id, employee))
    (hkey : qr.server_public_key ≠ spk) :
    api_attendance_post verifyRaw spk st req now dateStr timeStr isoStr =
      (.wrongServer, st) := by
  unfold api_attendance_post
  simp only [hqr]
  rw [if_neg (by exact not_or.mpr ⟨hpk, hsg⟩)]
  simp only [hfound]
  rw [if_pos hkey]

theorem post_bad_server_sig {verifyRaw : List Nat → String → List Nat → Bool}
    {spk : String} {st : ServerState} {req : AttendanceRequest}
    {now : Nat} {dateStr timeStr isoStr : String} {qr : QRData}
    {emp_id : String} {employee : Employee}
    (hqr : req.server_qr = some qr)
    (hpk : pyStrip req.public_key ≠ "") (hsg : req.employee_signature ≠ "")
    (hfound : findEmployee st.employees (pyStrip req.public_key) = some (emp_id, employee))
    (hkey : qr.server_public_key = spk)
    (hsrv : verify_signature verifyRaw spk qr.message qr.signature = false) :
    api_attendance_post verifyRaw spk st req now dateStr timeStr isoStr =
      (.invalidQRSignature, st) := by
  unfold api_attendance_post
  simp only [hqr]
  rw [if_neg (by exact not_or.mpr ⟨hpk, hsg⟩)]
  simp only [hfound]
  rw [if_neg (by simp [hkey]), if_pos hsrv]

theorem post_expired {verifyRaw : List Nat → String → List Nat → Bool}
    {spk : String} {st : ServerState} {req : AttendanceRequest}
    {now : Nat} {dateStr timeStr isoStr : String} {qr : QRData}
    {emp_id : String} {employee : Employee}
    (hqr : req.server_qr = some qr)
    (hpk : pyStrip req.public_key ≠ "") (hsg : req.employee_signature ≠ "")
    (hfound : findEmployee st.employees (pyStrip req.public_key) = some (emp_id, employee))
    (hkey : qr.server_public_key = spk)
    (hsrv : verify_signature verifyRaw spk qr.message qr.signature = true)
    (hstale : (now : Int) - qr.timestamp > QR_GRACE_PERIOD ∨
              (now : Int) - qr.timestamp < -QR_GRACE_PERIOD) :
    api_attendance_post verifyRaw spk st req now dateStr timeStr isoStr =
      (.qrExpired ((now : Int) - qr.timestamp), st) := by
  unfold api_attendance_post
  simp only [hqr]
  rw [if_neg (by exact not_or.mpr ⟨hpk, hsg⟩)]
  simp only [hfound]
  rw [if_neg (by simp [hkey]), if_neg (by simp [hsrv]), if_pos hstale]

theorem post_already_used {verifyRaw : List Nat → String → List Nat → Bool}
    {spk : String} {st : ServerState} {req : AttendanceRequest}
    {now : Nat} {dateStr timeStr isoStr : String} {qr : QRData}
    {emp_id : String} {employee : Employee}
    (hqr : req.server_qr = some qr)
    (hpk : pyStrip req.public_key ≠ "") (hsg : req.employee_signature ≠ "")
    (hfound : findEmployee st.employees (pyStrip req.public_key) = some (emp_id, employee))
    (hkey : qr.server_public_key = spk)
    (hsrv : verify_signature verifyRaw spk qr.message qr.signature = true)
    (hfresh : ¬((now : Int) - qr.timestamp > QR_GRACE_PERIOD ∨
                (now : Int) - qr.timestamp < -QR_GRACE_PERIOD))
    (hconf : req.confirm_checkout = false)
    (hhit : replay_hit st.recent_qr_usage emp_id (get_time_slot now) now = true) :
    api_attendance_post verifyRaw spk st req now dateStr timeStr isoStr =
      (.alreadyUsed, st) := by
  unfold api_attendance_post
  simp only [hqr]
  rw [if_neg (by exact not_or.mpr ⟨hpk, hsg⟩)]
  simp only [hfound]
  rw [if_neg (by simp [hkey]), if_neg (by simp [hsrv]), if_neg hfresh,
    if_pos ⟨hconf, hhit⟩]

theorem post_bad_emp_sig {verifyRaw : List Nat → String → List Nat → Bool}
    {spk : String} {st : ServerState} {req : AttendanceRequest}
    {now : Nat} {dateStr timeStr isoStr : String} {qr : QRData}
    {emp_id : String} {employee : Employee}
    (hqr : req.server_qr = some qr)
    (hpk : pyStrip req.public_key ≠ "") (hsg : req.employee_signature ≠ "")
    (hfound : findEmployee st.employees (pyStrip req.public_key) = some (emp_id, employee))
    (hkey : qr.server_public_key = spk)
    (hsrv : verify_signature verifyRaw spk qr.message qr.signature = true)
    (hfresh : ¬((now : Int) - qr.timestamp > QR_GRACE_PERIOD ∨
                (now : Int) - qr.timestamp < -QR_GRACE_PERIOD))
    (hreplay : req.confirm_checkout = true ∨
               replay_hit st.recent_qr_usage emp_id (get_time_slot now) now = false)
    (hemp : verify_signature verifyRaw (pyStrip req.public_key) qr.message
              req.employee_signature = false) :
    api_attendance_post verifyRaw spk st req now dateStr timeStr isoStr =
      (.invalidEmployeeSignature, st) := by
  unfold api_attendance_post
  simp only [hqr]
  rw [if_neg (by exact not_or.mpr ⟨hpk, hsg⟩)]
  simp only [hfound]
  rw [if_neg (by simp [hkey]), if_neg (by simp [hsrv]), if_neg hfresh,
    if_neg (by rcases hreplay with h | h <;> simp [h]), if_pos hemp]

theorem post_verified {verifyRaw : List Nat → String → List Nat → Bool}
    {spk : String} {st : ServerState} {req : AttendanceRequest}
    {now : Nat} {dateStr timeStr isoStr : String} {qr : QRData}
    {emp_id : String} {employee : Employee}
    (hqr : req.server_qr = some qr)
    (hpk : pyStrip req.public_key ≠ "") (hsg : req.employee_signature ≠ "")
    (hfound : findEmployee st.employees (pyStrip req.public_key) = some (emp_id, employee))
    (hkey : qr.server_public_key = spk)
    (hsrv : verify_signature verifyRaw spk qr.message qr.signature = true)
    (hfresh : ¬((now : Int) - qr.timestamp > QR_GRACE_PERIOD ∨
                (now : Int) - qr.timestamp < -QR_GRACE_PERIOD))
    (hreplay : req.confirm_checkout = true ∨
               replay_hit st.recent_qr_usage emp_id (get_time_slot now) now = false)
    (hemp : verify_signature verifyRaw (pyStrip req.public_key) qr.message
              req.employee_signature = true) :
    api_attendance_post verifyRaw spk st req now dateStr timeStr isoStr =
      mark_attendance emp_id employee qr req.confirm_checkout st dateStr timeStr isoStr := by
  unfold api_attendance_post
  simp only [hqr]
  rw [if_neg (by exact not_or.mpr ⟨hpk, hsg⟩)]
  simp only [hfound]
  rw [if_neg (by simp [hkey]), if_neg (by simp [hsrv]), if_neg hfresh,
    if_neg (by rcases hreplay with h | h <;> simp [h]), if_neg (by simp [hemp])]

theorem post_missing_blank {verifyRaw : List Nat → String → List Nat → Bool}
    {spk : String} {st : ServerState} {req : AttendanceRequest}
    {now : Nat} {dateStr timeStr isoStr : String} {qr : QRData}
    (hqr : req.server_qr = some qr)
    (h : pyStrip req.public_key = "" ∨ req.employee_signature = "") :
    api_attendance_post verifyRaw spk st req now dateStr timeStr isoStr =
      (.missingData, st) := by
  unfold api_attendance_post
  simp only [hqr]
  rw [if_pos h]

/-- A record equal in key to some old record: `uniqueKeys_eq` pins it to
that record. -/
theorem uniqueKeys_eq {l : List AttendanceRecord} (h : UniqueKeys l)
    {r s : AttendanceRecord} (hr : r ∈ l) (hs : s ∈ l)
    (hk : r.emp_id = s.emp_id ∧ r.date = s.date) : r = s := by
  induction l with
  | nil => simp at hr
  | cons x xs ih =>
    rcases List.pairwise_cons.mp h with ⟨hx, hxs⟩
    rcases List.mem_cons.mp hr with rfl | hr1
    · rcases List.mem_cons.mp hs with rfl | hs1
      · rfl
      · exact absurd hk (hx s hs1)
    · rcases List.mem_cons.mp hs with rfl | hs1
      · exact absurd ⟨hk.1.symm, hk.2.symm⟩ (hx r hr1)
      · exact ih hxs hr1 hs1

/-- Effect of one `/api/attendance` POST on the server state: the registry
and replay map are never written (the usage-tracking code of the source is
unreachable), and the ledger is either untouched, extended by one fresh
check-in record for a key that had none, or has the first record of the
key closed out. -/
theorem api_attendance_post_effect (verifyRaw : List Nat → String → List Nat → Bool)
    (spk : String) (st : ServerState) (req : AttendanceRequest)
    (now : Nat) (dateStr timeStr isoStr : String) :
    (api_attendance_post verifyRaw spk st req now dateStr timeStr isoStr).2.employees
      = st.employees ∧
    (api_attendance_post verifyRaw spk st req now dateStr timeStr isoStr).2.recent_qr_usage
      = st.recent_qr_usage ∧
    ((api_attendance_post verifyRaw spk st req now dateStr timeStr isoStr).2.attendance
       = st.attendance ∨
     (∃ emp_id nm qrts,
        st.attendance.find? (recordMatches emp_id dateStr) = none ∧
        (api_attendance_post verifyRaw spk st req now dateStr timeStr isoStr).1
          = .checkIn nm timeStr ∧
        (api_attendance_post verifyRaw spk st req now dateStr timeStr isoStr).2.attendance
          = st.attendance ++ [checkInRecord emp_id nm dateStr timeStr isoStr qrts]) ∨
     (∃ emp_id nm ex,
        st.attendance.find? (recordMatches emp_id dateStr) = some ex ∧
        ex.out_time = none ∧
        (api_attendance_post verifyRaw spk st req now dateStr timeStr isoStr).1
          = .checkOut nm ex.in_time timeStr ∧
        (api_attendance_post verifyRaw spk st req now dateStr timeStr isoStr).2.attendance
          = checkoutLedger emp_id dateStr timeStr isoStr st.attendance)) := by
  rcases hqr : req.server_qr with _ | qr
  · rw [post_missing_qr hqr]
    exact ⟨rfl, rfl, Or.inl rfl⟩
  · by_cases hblank : pyStrip req.public_key = "" ∨ req.employee_signature = ""
    · rw [post_missing_blank hqr hblank]
      exact ⟨rfl, rfl, Or.inl rfl⟩
    · push_neg at hblank
      obtain ⟨hpk, hsg⟩ := hblank
      rcases hfound : findEmployee st.employees (pyStrip req.public_key)
        with _ | ⟨emp_id, employee⟩
      · rw [post_unknown hqr hpk hsg hfound]
        exact ⟨rfl, rfl, Or.inl rfl⟩
      · by_cases hkey : qr.server_public_key = spk
        · cases hsrv : verify_signature verifyRaw spk qr.message qr.signature with
          | false =>
            rw [post_bad_server_sig hqr hpk hsg hfound hkey hsrv]
            exact ⟨rfl, rfl, Or.inl rfl⟩
          | true =>
            by_cases hfresh : ((now : Int) - qr.timestamp > QR_GRACE_PERIOD ∨
                (now : Int) - qr.timestamp < -QR_GRACE_PERIOD)
            · rw [post_expired hqr hpk hsg hfound hkey hsrv hfresh]
              exact ⟨rfl, rfl, Or.inl rfl⟩
            · by_cases hrep : req.confirm_checkout = false ∧
                  replay_hit st.recent_qr_usage emp_id (get_time_slot now) now = true
              · rw [post_already_used hqr hpk hsg hfound hkey hsrv hfresh hrep.1 hrep.2]
                exact ⟨rfl, rfl, Or.inl rfl⟩
              · have hreplay : req.confirm_checkout = true ∨
                    replay_hit st.recent_qr_usage emp_id (get_time_slot now) now = false := by
                  rcases Bool.eq_false_or_eq_true req.confirm_checkout with h | h
                  · exact Or.inl h
                  · right
                    by_contra hh
                    exact hrep ⟨h, by simpa using hh⟩
                cases hemp : verify_signature verifyRaw (pyStrip req.public_key)
                    qr.message req.employee_signature with
                | false =>
                  rw [post_bad_emp_sig hqr hpk hsg hfound hkey hsrv hfresh hreplay hemp]
                  exact ⟨rfl, rfl, Or.inl rfl⟩
                | true =>
                  rw [post_verified hqr hpk hsg hfound hkey hsrv hfresh hreplay hemp]
                  rcases hrec : st.attendance.find? (recordMatches emp_id dateStr)
                    with _ | ex
                  · rw [mark_attendance_no_record hrec]
                    exact ⟨rfl, rfl, Or.inr (Or.inl
                      ⟨emp_id, employee.name, qr.timestamp, hrec, rfl, rfl⟩)⟩
                  · rcases hout : ex.out_time with _ | t
                    · cases hconf : req.confirm_checkout with
                      | false =>
                        rw [mark_attendance_pending hrec hout]
                        exact ⟨rfl, rfl, Or.inl rfl⟩
                      | true =>
                        rw [mark_attendance_checkout hrec hout]
                        exact ⟨rfl, rfl, Or.inr (Or.inr
                          ⟨emp_id, employee.name, ex, hrec, hout, rfl, rfl⟩)⟩
                    · rw [mark_attendance_closed hrec hout]
                      exact ⟨rfl, rfl, Or.inl rfl⟩
        · rw [post_wrong_server hqr hpk hsg hfound hkey]
          exact ⟨rfl, rfl, Or.inl rfl⟩

/-- Keys of a ledger with pairwise-distinct keys stay pairwise distinct
under every reachable step. -/
theorem uniqueKeys_reachable {a : List AttendanceRecord}
    (h : ReachableAttendance a) : UniqueKeys a := by
  induction h with
  | init => exact List.Pairwise.nil
  | step a verifyRaw spk employees usage req now dateStr timeStr isoStr _ ih =>
    rcases (api_attendance_post_effect verifyRaw spk ⟨employees, a, usage⟩
        req now dateStr timeStr isoStr).2.2 with heq | hin | hup
    · rw [heq]
      exact ih
    · obtain ⟨emp_id, nm, qrts, hnone, _, heq⟩ := hin
      rw [heq]
      refine List.pairwise_append.mpr ⟨ih, List.pairwise_singleton _ _, ?_⟩
      intro r hr s hs
      rcases List.mem_singleton.mp hs with rfl
      have := List.find?_eq_none.mp hnone r hr
      intro hk
      exact this (recordMatches_iff.mpr ⟨hk.1, hk.2⟩)
    · obtain ⟨emp_id, nm, ex, hsome, hout, _, heq⟩ := hup
      rw [heq]
      exact uniqueKeys_updateFirst (checkoutUpdate_key timeStr isoStr) ih

/-- The attendance ledger is written only when every verification step of
the pipeline has passed. -/
theorem mutation_requires_pass {verifyRaw : List Nat → String → List Nat → Bool}
    {spk : String} {st : ServerState} {req : AttendanceRequest}
    {now : Nat} {dateStr timeStr isoStr : String} {qr : QRData}
    (hqr : req.server_qr = some qr)
    (hne : (api_attendance_post verifyRaw spk st req now dateStr timeStr isoStr).2 ≠ st) :
    pyStrip req.public_key ≠ "" ∧ req.employee_signature ≠ "" ∧
    (∃ emp_id employee,
      findEmployee st.employees (pyStrip req.public_key) = some (emp_id, employee) ∧
      (req.confirm_checkout = true ∨
       replay_hit st.recent_qr_usage emp_id (get_time_slot now) now = false)) ∧
    qr.server_public_key = spk ∧
    verify_signature verifyRaw spk qr.message qr.signature = true ∧
    ¬((now : Int) - qr.timestamp > QR_GRACE_PERIOD ∨
      (now : Int) - qr.timestamp < -QR_GRACE_PERIOD) ∧
    verify_signature verifyRaw (pyStrip req.public_key) qr.message
      req.employee_signature = true := by
  by_cases hblank : pyStrip req.public_key = "" ∨ req.employee_signature = ""
  · rw [post_missing_blank hqr hblank] at hne
    exact absurd rfl hne
  · push_neg at hblank
    obtain ⟨hpk, hsg⟩ := hblank
    rcases hfound : findEmployee st.employees (pyStrip req.public_key)
      with _ | ⟨emp_id, employee⟩
    · rw [post_unknown hqr hpk hsg hfound] at hne
      exact absurd rfl hne
    · by_cases hkey : qr.server_public_key = spk
      · cases hsrv : verify_signature verifyRaw spk qr.message qr.signature with
        | false =>
          rw [post_bad_server_sig hqr hpk hsg hfound hkey hsrv] at hne
          exact absurd rfl hne
        | true =>
          by_cases hfresh : ((now : Int) - qr.timestamp > QR_GRACE_PERIOD ∨
              (now : Int) - qr.timestamp < -QR_GRACE_PERIOD)
          · rw [post_expired hqr hpk hsg hfound hkey hsrv hfresh] at hne
            exact absurd rfl hne
          · by_cases hrep : req.confirm_checkout = false ∧
                replay_hit st.recent_qr_usage emp_id (get_time_slot now) now = true
            · rw [post_already_used hqr hpk hsg hfound hkey hsrv hfresh hrep.1 hrep.2] at hne
              exact absurd rfl hne
            · have hreplay : req.confirm_checkout = true ∨
                  replay_hit st.recent_qr_usage emp_id (get_time_slot now) now = false := by
                rcases Bool.eq_false_or_eq_true req.confirm_checkout with h | h
                · exact Or.inl h
                · right
                  by_contra hh
                  exact hrep ⟨h, by simpa using hh⟩
              cases hemp : verify_signature verifyRaw (pyStrip req.public_key)
                  qr.message req.employee_signature with
              | false =>
                rw [post_bad_emp_sig hqr hpk hsg hfound hkey hsrv hfresh hreplay hemp] at hne
                exact absurd rfl hne
              | true =>
                exact ⟨hpk, hsg, ⟨emp_id, employee, rfl, hreplay⟩, hkey, rfl,
                  hfresh, rfl⟩
      · rw [post_wrong_server hqr hpk hsg hfound hkey] at hne
        exact absurd rfl hne

/-- The state machine only ever answers check-in, pending-checkout,
check-out or already-checked-out. -/
theorem mark_attendance_shape (emp_id : String) (employee : Employee) (qr : QRData)
    (confirm : Bool) (st : ServerState) (dateStr timeStr isoStr : String) :
    (∃ nm t, (mark_attendance emp_id employee qr confirm st dateStr timeStr isoStr).1
        = .checkIn nm t) ∨
    (∃ nm a b, (mark_attendance emp_id employee qr confirm st dateStr timeStr isoStr).1
        = .pendingCheckout nm a b) ∨
    (∃ nm a b, (mark_attendance emp_id employee qr confirm st dateStr timeStr isoStr).1
        = .checkOut nm a b) ∨
    (∃ nm a b, (mark_attendance emp_id employee qr confirm st dateStr timeStr isoStr).1
        = .alreadyCheckedOut nm a b) := by
  rcases hrec : st.attendance.find? (recordMatches emp_id dateStr) with _ | ex
  · rw [mark_attendance_no_record hrec]
    exact Or.inl ⟨employee.name, timeStr, rfl⟩
  · rcases hout : ex.out_time with _ | t
    · cases confirm with
      | false =>
        rw [mark_attendance_pending hrec hout]
        exact Or.inr (Or.inl ⟨employee.name, ex.in_time, timeStr, rfl⟩)
      | true =>
        rw [mark_attendance_checkout hrec hout]
        exact Or.inr (Or.inr (Or.inl ⟨employee.name, ex.in_time, timeStr, rfl⟩))
    · rw [mark_attendance_closed hrec hout]
      exact Or.inr (Or.inr (Or.inr ⟨employee.name, ex.in_time, t, rfl⟩))

theorem mark_attendance_ne_qrExpired (emp_id : String) (employee : Employee)
    (qr : QRData) (confirm : Bool) (st : ServerState)
    (dateStr timeStr isoStr : String) (d : Int) :
    (mark_attendance emp_id employee qr confirm st dateStr timeStr isoStr).1
      ≠ .qrExpired d := by
  rcases mark_attendance_shape emp_id employee qr confirm st dateStr timeStr isoStr
    with ⟨nm, t, h⟩ | ⟨nm, a, b, h⟩ | ⟨nm, a, b, h⟩ | ⟨nm, a, b, h⟩ <;>
    simp [h]

theorem mark_attendance_ne_alreadyUsed (emp_id : String) (employee : Employee)
    (qr : QRData) (confirm : Bool) (st : ServerState)
    (dateStr timeStr isoStr : String) :
    (mark_attendance emp_id employee qr confirm st dateStr timeStr isoStr).1
      ≠ .alreadyUsed := by
  rcases mark_attendance_shape emp_id employee qr confirm st dateStr timeStr isoStr
    with ⟨nm, t, h⟩ | ⟨nm, a, b, h⟩ | ⟨nm, a, b, h⟩ | ⟨nm, a, b, h⟩ <;>
    simp [h]

theorem find?_append_of_none {α : Type} {p : α → Bool} {l : List α} {x : α}
    (h : l.find? p = none) (hx : p x = true) :
    (l ++ [x]).find? p = some x := by
  rw [List.find?_append, h]
  simp [List.find?_cons_of_pos _ hx]

theorem replay_pass_of_not_hit {req : AttendanceRequest} {usage : QrUsage}
    {emp_id : String} {slot tnow : Nat}
    (hrep : ¬(req.confirm_checkout = false ∧ replay_hit usage emp_id slot tnow = true)) :
    req.confirm_checkout = true ∨ replay_hit usage emp_id slot tnow = false := by
  rcases Bool.eq_false_or_eq_true req.confirm_checkout with h | h
  · exact Or.inl h
  · right
    by_contra hh
    exact hrep ⟨h, by simpa using hh⟩

/-! ### Claim theorems -/

/-- C6: for every issuance time `now`, the issued challenge's slot start
equals `floor(now / INTERVAL) * INTERVAL` with `INTERVAL = 10`, and the
signed message is exactly the string
`"attendance:" ++ slotStart ++ ":" ++ serverPublicKeyBase58`. -/
theorem challenge_slot_and_message (signMsg : String → String)
    (server_public_key_b58 : String) (now : Nat) :
    (generate_qr_data signMsg server_public_key_b58 now).timestamp
        = ((now / 10 * 10 : Nat) : Int) ∧
    (generate_qr_data signMsg server_public_key_b58 now).message
        = "attendance:" ++ toString (now / 10 * 10) ++ ":" ++ server_public_key_b58 ∧
    INTERVAL = 10 ∧
    (generate_qr_data signMsg server_public_key_b58 now).timestamp
        = ((get_time_slot now : Nat) : Int) :=
  ⟨rfl, rfl, rfl, rfl⟩

/-- C5: `verify_signature` is a total Boolean function (the embedding of a
`try`/`except` that catches every exception), and it returns `true` exactly
when the public key is well-formed base-58 of exactly 32 bytes, the
signature is well-formed base-58 and the cryptographic check passes —
so every malformed or mismatched input collapses to `false`. -/
theorem verify_signature_never_raises (verifyRaw : List Nat → String → List Nat → Bool)
    (pk msg sig : String) :
    verify_signature verifyRaw pk msg sig = true ↔
      ∃ pkBytes sigBytes,
        b58decode pk = some pkBytes ∧ pkBytes.length = 32 ∧
        b58decode sig = some sigBytes ∧ verifyRaw pkBytes msg sigBytes = true := by
  unfold verify_signature
  rcases hpk : b58decode pk with _ | pkBytes
  · simp
  · by_cases hlen : pkBytes.length = 32
    · rcases hsig : b58decode sig with _ | sigBytes
      · simp [hlen]
      · simp [hlen]
    · simp [hlen]

/-- C8: registering an identity token that is already a key of the registry
returns the duplicate failure and leaves the registry — in particular the
stored profile (and its public key) under that token — unchanged. -/
theorem register_duplicate_rejected (employees : Employees)
    (emp_id name email department : String) (kp : String × String) (ra : String)
    (hid : pyStrip emp_id ≠ "") (hname : pyStrip name ≠ "")
    (hdup : (employees.find? (fun p => p.1 == pyStrip emp_id)).isSome = true) :
    api_register employees emp_id name email department kp ra =
      (.duplicate (pyStrip emp_id), employees) ∧
    (∀ e, employees.find? (fun p => p.1 == pyStrip emp_id) = some e →
      (api_register employees emp_id name email department kp ra).2.find?
        (fun p => p.1 == pyStrip emp_id) = some e) := by
  have h1 : api_register employees emp_id name email department kp ra =
      (.duplicate (pyStrip emp_id), employees) := by
    simp only [api_register]
    rw [if_neg (not_or.mpr ⟨hid, hname⟩), if_pos hdup]
  refine ⟨h1, fun e he => ?_⟩
  rw [h1]
  exact he

theorem register_duplicate_rejected_witness :
    api_register [("E1", demoEmployee)] "E1" "Bob" "" "" ("sk", "pk") "ra" =
      (.duplicate "E1", [("E1", demoEmployee)]) := by
  have h := (register_duplicate_rejected [("E1", demoEmployee)] "E1" "Bob" "" ""
    ("sk", "pk") "ra" (by decide) (by decide) (by decide)).1
  rw [h]
  decide

/-- C10: a registration whose identity token or display name is absent or
whitespace-only fails with "Employee ID and Name are required", leaves the
registry unchanged, and its outcome does not depend on the (never
generated) key pair or registration timestamp. -/
theorem register_blank_rejected (employees : Employees)
    (emp_id name email department : String) (kp : String × String) (ra : String)
    (h : pyStrip emp_id = "" ∨ pyStrip name = "") :
    api_register employees emp_id name email department kp ra =
      (.missingFields, employees) ∧
    RegisterResult.message .missingFields = "Employee ID and Name are required" ∧
    (∀ (kp2 : String × String) (ra2 : String),
      api_register employees emp_id name email department kp2 ra2 =
        api_register employees emp_id name email department kp ra) := by
  have h1 : ∀ (kp3 : String × String) (ra3 : String),
      api_register employees emp_id name email department kp3 ra3 =
        (.missingFields, employees) := by
    intro kp3 ra3
    simp only [api_register]
    rw [if_pos h]
  exact ⟨h1 kp ra, rfl, fun kp2 ra2 => (h1 kp2 ra2).trans (h1 kp ra).symm⟩

theorem register_blank_rejected_witness :
    api_register [] "   " "Bob" "" "" ("sk", "pk") "ra" = (.missingFields, []) ∧
    api_register [("E1", demoEmployee)] "E2" "\t \n" "e" "d" ("sk", "pk") "ra" =
      (.missingFields, [("E1", demoEmployee)]) :=
  ⟨(register_blank_rejected [] "   " "Bob" "" "" ("sk", "pk") "ra"
      (Or.inl (by decide))).1,
   (register_blank_rejected [("E1", demoEmployee)] "E2" "\t \n" "e" "d"
      ("sk", "pk") "ra" (Or.inr (by decide))).1⟩

/-- C1 (exhibit of the replay-guard dead code): a concrete run in which the
same (identity, slot-1000) challenge is submitted twice inside
`QR_REUSE_WINDOW`, both times without `confirm_checkout` and passing every
other verification step.  The first submission succeeds as a check-in, but
it leaves `recent_qr_usage` empty — the "Track QR usage" write of
src/app.py lines 1645–1647 sits after the `return` of both branches and
never executes — so the second submission is answered with the
pending-checkout confirmation prompt instead of the claimed
"QR code already used recently" rejection. -/
theorem replay_guard_never_fires :
    demoSt1.recent_qr_usage = [] ∧
    (api_attendance_post demoVerify demoSpk demoSt0 demoReq 1005
        "2026-10-12" "10:00:05" "2026-10-12T10:00:05").1
      = .checkIn "Alice" "10:00:05" ∧
    (api_attendance_post demoVerify demoSpk demoSt1 demoReq 1008
        "2026-10-12" "10:00:08" "2026-10-12T10:00:08").1
      = .pendingCheckout "Alice" "10:00:05" "10:00:08" ∧
    (api_attendance_post demoVerify demoSpk demoSt1 demoReq 1008
        "2026-10-12" "10:00:08" "2026-10-12T10:00:08").1
      ≠ .alreadyUsed ∧
    AttendanceResult.alreadyUsed.message = "QR code already used recently" ∧
    get_time_slot 1005 = get_time_slot 1008 ∧
    (1008 : Int) - (1005 : Int) < QR_REUSE_WINDOW ∧
    demoReq.confirm_checkout = false := by
  decide

/-- C3: under the preceding pipeline steps passing, the submission is
rejected as expired — reporting the observed age `now − slotStart` — if
and only if `|now − slotStart| > GRACE`; in particular at
`now = slotStart + GRACE + 1` it is rejected with reported age
`GRACE + 1 = 31`. -/
theorem freshness_window (verifyRaw : List Nat → String → List Nat → Bool)
    (spk : String) (st : ServerState) (req : AttendanceRequest)
    (now : Nat) (dateStr timeStr isoStr : String) (qr : QRData)
    (emp_id : String) (employee : Employee)
    (hqr : req.server_qr = some qr)
    (hpk : pyStrip req.public_key ≠ "") (hsg : req.employee_signature ≠ "")
    (hfound : findEmployee st.employees (pyStrip req.public_key) = some (emp_id, employee))
    (hkey : qr.server_public_key = spk)
    (hsrv : verify_signature verifyRaw spk qr.message qr.signature = true) :
    ((∃ d, (api_attendance_post verifyRaw spk st req now dateStr timeStr isoStr).1
        = .qrExpired d) ↔ ¬(|(now : Int) - qr.timestamp| ≤ QR_GRACE_PERIOD)) ∧
    ((now : Int) = qr.timestamp + (QR_GRACE_PERIOD + 1) →
      (api_attendance_post verifyRaw spk st req now dateStr timeStr isoStr).1
        = .qrExpired (QR_GRACE_PERIOD + 1)) := by
  by_cases hstale : ((now : Int) - qr.timestamp > QR_GRACE_PERIOD ∨
      (now : Int) - qr.timestamp < -QR_GRACE_PERIOD)
  · have h : api_attendance_post verifyRaw spk st req now dateStr timeStr isoStr
        = (.qrExpired ((now : Int) - qr.timestamp), st) :=
      post_expired hqr hpk hsg hfound hkey hsrv hstale
    constructor
    · rw [h]
      constructor
      · intro _
        rw [abs_le]
        simp only [QR_GRACE_PERIOD] at hstale ⊢
        omega
      · intro _
        exact ⟨(now : Int) - qr.timestamp, rfl⟩
    · intro h31
      rw [h]
      have hd : (now : Int) - qr.timestamp = QR_GRACE_PERIOD + 1 := by
        simp only [QR_GRACE_PERIOD] at h31 ⊢
        omega
      rw [hd]
  · have habs : |(now : Int) - qr.timestamp| ≤ QR_GRACE_PERIOD := by
      push_neg at hstale
      rw [abs_le]
      simp only [QR_GRACE_PERIOD] at hstale ⊢
      omega
    have hnoexp : ∀ d : Int,
        (api_attendance_post verifyRaw spk st req now dateStr timeStr isoStr).1
          ≠ .qrExpired d := by
      intro d hd
      by_cases hrep : req.confirm_checkout = false ∧
          replay_hit st.recent_qr_usage emp_id (get_time_slot now) now = true
      · rw [post_already_used hqr hpk hsg hfound hkey hsrv hstale hrep.1 hrep.2] at hd
        simp at hd
      · have hreplay := replay_pass_of_not_hit hrep
        cases hemp : verify_signature verifyRaw (pyStrip req.public_key)
            qr.message req.employee_signature with
        | false =>
          rw [post_bad_emp_sig hqr hpk hsg hfound hkey hsrv hstale hreplay hemp] at hd
          simp at hd
        | true =>
          rw [post_verified hqr hpk hsg hfound hkey hsrv hstale hreplay hemp] at hd
          exact mark_attendance_ne_qrExpired emp_id employee qr req.confirm_checkout
            st dateStr timeStr isoStr d hd
    constructor
    · constructor
      · rintro ⟨d, hd⟩
        exact absurd hd (hnoexp d)
      · intro hc
        exact absurd habs hc
    · intro h31
      exfalso
      have := abs_le.mp habs
      simp only [QR_GRACE_PERIOD] at this h31
      omega

theorem freshness_window_witness :
    (api_attendance_post demoVerify demoSpk demoSt0 demoReq 1031
        "2026-10-12" "10:00:31" "2026-10-12T10:00:31").1 = .qrExpired 31 := by
  have h := (freshness_window demoVerify demoSpk demoSt0 demoReq 1031
    "2026-10-12" "10:00:31" "2026-10-12T10:00:31" demoQr "E1" demoEmployee
    rfl (by decide) (by decide) (by decide) rfl (by decide)).2 (by decide)
  exact h

/-- C9: a submission with `confirm_checkout = true` that passes
verification while no ledger record exists for that (identity, day) still
creates a fresh check-in record and reports action "check-in".  No
hypothesis about `recent_qr_usage` is made: the replay guard is skipped on
a confirm submission whatever the replay map holds. -/
theorem confirm_checkout_checks_in (verifyRaw : List Nat → String → List Nat → Bool)
    (spk : String) (st : ServerState) (req : AttendanceRequest)
    (now : Nat) (dateStr timeStr isoStr : String) (qr : QRData)
    (emp_id : String) (employee : Employee)
    (hqr : req.server_qr = some qr)
    (hpk : pyStrip req.public_key ≠ "") (hsg : req.employee_signature ≠ "")
    (hfound : findEmployee st.employees (pyStrip req.public_key) = some (emp_id, employee))
    (hkey : qr.server_public_key = spk)
    (hsrv : verify_signature verifyRaw spk qr.message qr.signature = true)
    (hfresh : ¬((now : Int) - qr.timestamp > QR_GRACE_PERIOD ∨
                (now : Int) - qr.timestamp < -QR_GRACE_PERIOD))
    (hconf : req.confirm_checkout = true)
    (hemp : verify_signature verifyRaw (pyStrip req.public_key) qr.message
              req.employee_signature = true)
    (hnone : st.attendance.find? (recordMatches emp_id dateStr) = none) :
    api_attendance_post verifyRaw spk st req now dateStr timeStr isoStr =
      (.checkIn employee.name timeStr,
       { st with attendance := st.attendance ++
           [checkInRecord emp_id employee.name dateStr timeStr isoStr qr.timestamp] }) ∧
    AttendanceResult.action (.checkIn employee.name timeStr) = some "check-in" := by
  rw [post_verified hqr hpk hsg hfound hkey hsrv hfresh (Or.inl hconf) hemp, hconf,
    mark_attendance_no_record hnone]
  exact ⟨rfl, rfl⟩

theorem confirm_checkout_checks_in_witness :
    replay_hit demoUsageHit "E1" (get_time_slot 1008) 1008 = true ∧
    (api_attendance_post demoVerify demoSpk
        ⟨[("E1", demoEmployee)], [], demoUsageHit⟩ demoReqConfirm 1008
        "2026-10-12" "10:00:08" "2026-10-12T10:00:08").1
      = .checkIn "Alice" "10:00:08" := by
  refine ⟨by decide, ?_⟩
  have h := (confirm_checkout_checks_in demoVerify demoSpk
    ⟨[("E1", demoEmployee)], [], demoUsageHit⟩ demoReqConfirm 1008
    "2026-10-12" "10:00:08" "2026-10-12T10:00:08" demoQr "E1" demoEmployee
    rfl (by decide) (by decide) (by decide) rfl (by decide) (by decide) rfl
    (by decide) rfl).1
  rw [h]
  rfl

/-- C4: the verification pipeline short-circuits on the first failing step,
in source order — unknown identity, wrong server key, invalid server
signature, expired challenge, replay (skipped entirely when
`confirm_checkout` is set), invalid holder signature — each failure being a
distinct reported reason and leaving the state untouched; the ledger is
written only when every step has passed. -/
theorem pipeline_order_and_reasons (verifyRaw : List Nat → String → List Nat → Bool)
    (spk : String) (st : ServerState) (req : AttendanceRequest)
    (now : Nat) (dateStr timeStr isoStr : String) (qr : QRData)
    (hqr : req.server_qr = some qr)
    (hpk : pyStrip req.public_key ≠ "") (hsg : req.employee_signature ≠ "") :
    (∀ d : Int,
      ([.unknownEmployee, .wrongServer, .invalidQRSignature, .qrExpired d,
        .alreadyUsed, .invalidEmployeeSignature] : List AttendanceResult).Pairwise
        (· ≠ ·)) ∧
    (findEmployee st.employees (pyStrip req.public_key) = none →
      api_attendance_post verifyRaw spk st req now dateStr timeStr isoStr
        = (.unknownEmployee, st)) ∧
    (∀ emp_id employee,
      findEmployee st.employees (pyStrip req.public_key) = some (emp_id, employee) →
      (qr.server_public_key ≠ spk →
        api_attendance_post verifyRaw spk st req now dateStr timeStr isoStr
          = (.wrongServer, st)) ∧
      (qr.server_public_key = spk →
        (verify_signature verifyRaw spk qr.message qr.signature = false →
          api_attendance_post verifyRaw spk st req now dateStr timeStr isoStr
            = (.invalidQRSignature, st)) ∧
        (verify_signature verifyRaw spk qr.message qr.signature = true →
          (((now : Int) - qr.timestamp > QR_GRACE_PERIOD ∨
            (now : Int) - qr.timestamp < -QR_GRACE_PERIOD) →
            api_attendance_post verifyRaw spk st req now dateStr timeStr isoStr
              = (.qrExpired ((now : Int) - qr.timestamp), st)) ∧
          (¬((now : Int) - qr.timestamp > QR_GRACE_PERIOD ∨
             (now : Int) - qr.timestamp < -QR_GRACE_PERIOD) →
            (req.confirm_checkout = false →
              replay_hit st.recent_qr_usage emp_id (get_time_slot now) now = true →
              api_attendance_post verifyRaw spk st req now dateStr timeStr isoStr
                = (.alreadyUsed, st)) ∧
            (req.confirm_checkout = true →
              (api_attendance_post verifyRaw spk st req now dateStr timeStr isoStr).1
                ≠ .alreadyUsed) ∧
            ((req.confirm_checkout = true ∨
              replay_hit st.recent_qr_usage emp_id (get_time_slot now) now = false) →
              (verify_signature verifyRaw (pyStrip req.public_key) qr.message
                  req.employee_signature = false →
                api_attendance_post verifyRaw spk st req now dateStr timeStr isoStr
                  = (.invalidEmployeeSignature, st)) ∧
              (verify_signature verifyRaw (pyStrip req.public_key) qr.message
                  req.employee_signature = true →
                api_attendance_post verifyRaw spk st req now dateStr timeStr isoStr
                  = mark_attendance emp_id employee qr req.confirm_checkout st
                      dateStr timeStr isoStr)))))) ∧
    ((api_attendance_post verifyRaw spk st req now dateStr timeStr isoStr).2 ≠ st →
      ∃ emp_id employee,
        findEmployee st.employees (pyStrip req.public_key) = some (emp_id, employee) ∧
        qr.server_public_key = spk ∧
        verify_signature verifyRaw spk qr.message qr.signature = true ∧
        ¬((now : Int) - qr.timestamp > QR_GRACE_PERIOD ∨
          (now : Int) - qr.timestamp < -QR_GRACE_PERIOD) ∧
        (req.confirm_checkout = true ∨
         replay_hit st.recent_qr_usage emp_id (get_time_slot now) now = false) ∧
        verify_signature verifyRaw (pyStrip req.public_key) qr.message
          req.employee_signature = true) := by
  refine ⟨?_, ?_, ?_, ?_⟩
  · intro d
    simp
  · intro hfound
    exact post_unknown hqr hpk hsg hfound
  · intro emp_id employee hfound
    refine ⟨fun hk => post_wrong_server hqr hpk hsg hfound hk, fun hkey => ?_⟩
    refine ⟨fun hsrv => post_bad_server_sig hqr hpk hsg hfound hkey hsrv,
      fun hsrv => ?_⟩
    refine ⟨fun hstale => post_expired hqr hpk hsg hfound hkey hsrv hstale,
      fun hfresh => ?_⟩
    refine ⟨fun hc hh => post_already_used hqr hpk hsg hfound hkey hsrv hfresh hc hh,
      fun hconf => ?_, fun hreplay => ?_⟩
    · cases hemp : verify_signature verifyRaw (pyStrip req.public_key)
          qr.message req.employee_signature with
      | false =>
        rw [post_bad_emp_sig hqr hpk hsg hfound hkey hsrv hfresh (Or.inl hconf) hemp]
        simp
      | true =>
        rw [post_verified hqr hpk hsg hfound hkey hsrv hfresh (Or.inl hconf) hemp]
        exact mark_attendance_ne_alreadyUsed emp_id employee qr req.confirm_checkout
          st dateStr timeStr isoStr
    · exact ⟨fun hemp => post_bad_emp_sig hqr hpk hsg hfound hkey hsrv hfresh hreplay hemp,
        fun hemp => post_verified hqr hpk hsg hfound hkey hsrv hfresh hreplay hemp⟩
  · intro hne
    obtain ⟨_, _, ⟨emp_id, employee, hfound, hreplay⟩, hkey, hsrv, hfresh, hemp⟩ :=
      mutation_requires_pass hqr hne
    exact ⟨emp_id, employee, hfound, hkey, hsrv, hfresh, hreplay, hemp⟩

theorem pipeline_order_and_reasons_witness :
    api_attendance_post demoVerify demoSpk demoSt0 demoReqWrong 1005
      "2026-10-12" "10:00:05" "2026-10-12T10:00:05" = (.wrongServer, demoSt0) := by
  have h := pipeline_order_and_reasons demoVerify demoSpk demoSt0 demoReqWrong 1005
    "2026-10-12" "10:00:05" "2026-10-12T10:00:05" demoQrWrong rfl
    (by decide) (by decide)
  exact ((h.2.2.1 "E1" demoEmployee (by decide)).1) (by decide)

/-- C2: for an identity with no record yet that day, four verified
submissions drive the per-day state machine: check-in (record created with
`out_time = null`), confirmation prompt (`"Confirm check-out"`, ledger
unchanged), confirmed check-out (`out_time` set), already-checked-out
(ledger unchanged). -/
theorem per_day_state_machine (verifyRaw : List Nat → String → List Nat → Bool)
    (spk : String) (employees : Employees) (usage : QrUsage)
    (a0 : List AttendanceRecord)
    (req1 req2 req3 req4 : AttendanceRequest) (qr1 qr2 qr3 qr4 : QRData)
    (emp_id : String) (employee : Employee)
    (now1 now2 now3 now4 : Nat) (dateStr : String)
    (t1 t2 t3 t4 i1 i2 i3 i4 : String)
    (res1 res2 res3 res4 : AttendanceResult) (st1 st2 st3 st4 : ServerState)
    (h0 : a0.find? (recordMatches emp_id dateStr) = none)
    (h1 : VerifiedSubmission verifyRaw spk employees usage req1 qr1 emp_id employee now1)
    (h2 : VerifiedSubmission verifyRaw spk employees usage req2 qr2 emp_id employee now2)
    (h3 : VerifiedSubmission verifyRaw spk employees usage req3 qr3 emp_id employee now3)
    (h4 : VerifiedSubmission verifyRaw spk employees usage req4 qr4 emp_id employee now4)
    (hc1 : req1.confirm_checkout = false) (hc2 : req2.confirm_checkout = false)
    (hc3 : req3.confirm_checkout = true)
    (e1 : api_attendance_post verifyRaw spk ⟨employees, a0, usage⟩ req1 now1 dateStr t1 i1
      = (res1, st1))
    (e2 : api_attendance_post verifyRaw spk st1 req2 now2 dateStr t2 i2 = (res2, st2))
    (e3 : api_attendance_post verifyRaw spk st2 req3 now3 dateStr t3 i3 = (res3, st3))
    (e4 : api_attendance_post verifyRaw spk st3 req4 now4 dateStr t4 i4 = (res4, st4)) :
    res1 = .checkIn employee.name t1 ∧ res1.action = some "check-in" ∧
    st1.attendance
      = a0 ++ [checkInRecord emp_id employee.name dateStr t1 i1 qr1.timestamp] ∧
    (checkInRecord emp_id employee.name dateStr t1 i1 qr1.timestamp).out_time = none ∧
    res2 = .pendingCheckout employee.name t1 t2 ∧
    res2.message = "Confirm check-out" ∧ res2.success = false ∧
    st2 = st1 ∧
    res3 = .checkOut employee.name t1 t3 ∧ res3.action = some "check-out" ∧
    st3.attendance = checkoutLedger emp_id dateStr t3 i3 st1.attendance ∧
    st3.attendance.find? (recordMatches emp_id dateStr)
      = some (checkoutUpdate t3 i3
          (checkInRecord emp_id employee.name dateStr t1 i1 qr1.timestamp)) ∧
    (checkoutUpdate t3 i3
      (checkInRecord emp_id employee.name dateStr t1 i1 qr1.timestamp)).out_time
        = some t3 ∧
    res4 = .alreadyCheckedOut employee.name t1 t3 ∧
    st4 = st3 := by
  obtain ⟨hq1, hpk1, hsg1, hf1, hk1, hs1, hfr1, hrp1, he1⟩ := h1
  obtain ⟨hq2, hpk2, hsg2, hf2, hk2, hs2, hfr2, hrp2, he2⟩ := h2
  obtain ⟨hq3, hpk3, hsg3, hf3, hk3, hs3, hfr3, hrp3, he3⟩ := h3
  obtain ⟨hq4, hpk4, hsg4, hf4, hk4, hs4, hfr4, hrp4, he4⟩ := h4
  have hmatch1 : recordMatches emp_id dateStr
      (checkInRecord emp_id employee.name dateStr t1 i1 qr1.timestamp) = true := by
    simp [recordMatches, checkInRecord]
  have hfind2 : (a0 ++ [checkInRecord emp_id employee.name dateStr t1 i1 qr1.timestamp]).find?
      (recordMatches emp_id dateStr)
      = some (checkInRecord emp_id employee.name dateStr t1 i1 qr1.timestamp) :=
    find?_append_of_none h0 hmatch1
  -- step 1: fresh check-in
  have p1 : api_attendance_post verifyRaw spk ⟨employees, a0, usage⟩ req1 now1 dateStr t1 i1
      = mark_attendance emp_id employee qr1 req1.confirm_checkout
          ⟨employees, a0, usage⟩ dateStr t1 i1 :=
    post_verified hq1 hpk1 hsg1 hf1 hk1 hs1 hfr1 hrp1 he1
  have m1 : mark_attendance emp_id employee qr1 false ⟨employees, a0, usage⟩ dateStr t1 i1
      = (.checkIn employee.name t1,
         ⟨employees,
          a0 ++ [checkInRecord emp_id employee.name dateStr t1 i1 qr1.timestamp],
          usage⟩) :=
    mark_attendance_no_record h0
  rw [p1, hc1, m1] at e1
  injection e1 with hres1 hst1
  subst hres1
  -- step 2: pending check-out, state unchanged
  have p2 : api_attendance_post verifyRaw spk
      ⟨employees, a0 ++ [checkInRecord emp_id employee.name dateStr t1 i1 qr1.timestamp],
       usage⟩ req2 now2 dateStr t2 i2
      = mark_attendance emp_id employee qr2 req2.confirm_checkout
          ⟨employees,
           a0 ++ [checkInRecord emp_id employee.name dateStr t1 i1 qr1.timestamp],
           usage⟩ dateStr t2 i2 :=
    post_verified hq2 hpk2 hsg2 hf2 hk2 hs2 hfr2 hrp2 he2
  have m2 : mark_attendance emp_id employee qr2 false
      ⟨employees, a0 ++ [checkInRecord emp_id employee.name dateStr t1 i1 qr1.timestamp],
       usage⟩ dateStr t2 i2
      = (.pendingCheckout employee.name t1 t2,
         ⟨employees,
          a0 ++ [checkInRecord emp_id employee.name dateStr t1 i1 qr1.timestamp],
          usage⟩) :=
    mark_attendance_pending hfind2 rfl
  rw [← hst1, p2, hc2, m2] at e2
  injection e2 with hres2 hst2
  subst hres2
  -- step 3: confirmed check-out
  have p3 : api_attendance_post verifyRaw spk
      ⟨employees, a0 ++ [checkInRecord emp_id employee.name dateStr t1 i1 qr1.timestamp],
       usage⟩ req3 now3 dateStr t3 i3
      = mark_attendance emp_id employee qr3 req3.confirm_checkout
          ⟨employees,
           a0 ++ [checkInRecord emp_id employee.name dateStr t1 i1 qr1.timestamp],
           usage⟩ dateStr t3 i3 :=
    post_verified hq3 hpk3 hsg3 hf3 hk3 hs3 hfr3 hrp3 he3
  have m3 : mark_attendance emp_id employee qr3 true
      ⟨employees, a0 ++ [checkInRecord emp_id employee.name dateStr t1 i1 qr1.timestamp],
       usage⟩ dateStr t3 i3
      = (.checkOut employee.name t1 t3,
         ⟨employees,
          checkoutLedger emp_id dateStr t3 i3
            (a0 ++ [checkInRecord emp_id employee.name dateStr t1 i1 qr1.timestamp]),
          usage⟩) :=
    mark_attendance_checkout hfind2 rfl
  rw [← hst2, p3, hc3, m3] at e3
  injection e3 with hres3 hst3
  subst hres3
  -- step 4: already checked out, state unchanged
  have hmatch3 : recordMatches emp_id dateStr
      (checkoutUpdate t3 i3
        (checkInRecord emp_id employee.name dateStr t1 i1 qr1.timestamp)) = true := by
    simp [recordMatches, checkInRecord, checkoutUpdate]
  have hfind4 : (checkoutLedger emp_id dateStr t3 i3
      (a0 ++ [checkInRecord emp_id employee.name dateStr t1 i1 qr1.timestamp])).find?
        (recordMatches emp_id dateStr)
      = some (checkoutUpdate t3 i3
          (checkInRecord emp_id employee.name dateStr t1 i1 qr1.timestamp)) :=
    find?_updateFirst hfind2 hmatch3
  have p4 : api_attendance_post verifyRaw spk
      ⟨employees,
       checkoutLedger emp_id dateStr t3 i3
         (a0 ++ [checkInRecord emp_id employee.name dateStr t1 i1 qr1.timestamp]),
       usage⟩ req4 now4 dateStr t4 i4
      = mark_attendance emp_id employee qr4 req4.confirm_checkout
          ⟨employees,
           checkoutLedger emp_id dateStr t3 i3
             (a0 ++ [checkInRecord emp_id employee.name dateStr t1 i1 qr1.timestamp]),
           usage⟩ dateStr t4 i4 :=
    post_verified hq4 hpk4 hsg4 hf4 hk4 hs4 hfr4 hrp4 he4
  have m4 : mark_attendance emp_id employee qr4 req4.confirm_checkout
      ⟨employees,
       checkoutLedger emp_id dateStr t3 i3
         (a0 ++ [checkInRecord emp_id employee.name dateStr t1 i1 qr1.timestamp]),
       usage⟩ dateStr t4 i4
      = (.alreadyCheckedOut employee.name t1 t3,
         ⟨employees,
          checkoutLedger emp_id dateStr t3 i3
            (a0 ++ [checkInRecord emp_id employee.name dateStr t1 i1 qr1.timestamp]),
          usage⟩) :=
    mark_attendance_closed hfind4 rfl
  rw [← hst3, p4, m4] at e4
  injection e4 with hres4 hst4
  subst hres4
  refine ⟨rfl, rfl, ?_, rfl, rfl, rfl, rfl, ?_, rfl, rfl, ?_, ?_, rfl, rfl, ?_⟩
  · rw [← hst1]
  · exact hst2.symm.trans hst1
  · rw [← hst3, ← hst1]
  · rw [← hst3]
    exact hfind4
  · exact hst4.symm.trans hst3

theorem per_day_state_machine_witness :
    (api_attendance_post demoVerify demoSpk
      (api_attendance_post demoVerify demoSpk
        (api_attendance_post demoVerify demoSpk
          (api_attendance_post demoVerify demoSpk demoSt0 demoReq 1005
            "2026-10-12" "10:00:05" "i1").2
          demoReq 1008 "2026-10-12" "10:00:08" "i2").2
        demoReqConfirm 1009 "2026-10-12" "10:00:09" "i3").2
      demoReq 1012 "2026-10-12" "10:00:12" "i4").1
    = .alreadyCheckedOut "Alice" "10:00:05" "10:00:09" := by
  have h := per_day_state_machine demoVerify demoSpk [("E1", demoEmployee)] [] []
    demoReq demoReq demoReqConfirm demoReq demoQr demoQr demoQr demoQr
    "E1" demoEmployee 1005 1008 1009 1012 "2026-10-12"
    "10:00:05" "10:00:08" "10:00:09" "10:00:12" "i1" "i2" "i3" "i4"
    _ _ _ _ _ _ _ _
    rfl (by unfold VerifiedSubmission; decide) (by unfold VerifiedSubmission; decide)
    (by unfold VerifiedSubmission; decide) (by unfold VerifiedSubmission; decide)
    rfl rfl rfl rfl rfl rfl rfl
  exact h.2.2.2.2.2.2.2.2.2.2.2.2.2.1

/-- C7: in every reachable ledger there is at most one record per
(identity, date); across any further protocol step no record is deleted, a
record whose key was absent before is created only by a successful
check-in (and starts with `out_time = null`), a set `out_time` is never
changed, and `out_time` goes from `null` to set only on a confirmed
check-out. -/
theorem attendance_ledger_invariants (a : List AttendanceRecord)
    (h : ReachableAttendance a) :
    UniqueKeys a ∧
    (∀ (verifyRaw : List Nat → String → List Nat → Bool) (spk : String)
       (employees : Employees) (usage : QrUsage) (req : AttendanceRequest)
       (now : Nat) (dateStr timeStr isoStr : String)
       (res : AttendanceResult) (st2 : ServerState),
      api_attendance_post verifyRaw spk ⟨employees, a, usage⟩ req now dateStr timeStr isoStr
        = (res, st2) →
      (∀ r ∈ a, ∃ s ∈ st2.attendance, s.emp_id = r.emp_id ∧ s.date = r.date) ∧
      (∀ s ∈ st2.attendance, (∀ r ∈ a, ¬(r.emp_id = s.emp_id ∧ r.date = s.date)) →
        (∃ nm t, res = .checkIn nm t) ∧ s.out_time = none) ∧
      (∀ r ∈ a, ∀ t, r.out_time = some t →
        ∀ s ∈ st2.attendance, s.emp_id = r.emp_id → s.date = r.date →
          s.out_time = some t) ∧
      (∀ r ∈ a, r.out_time = none →
        ∀ s ∈ st2.attendance, s.emp_id = r.emp_id → s.date = r.date →
          s.out_time ≠ none → ∃ nm it ot, res = .checkOut nm it ot)) := by
  have hu := uniqueKeys_reachable h
  refine ⟨hu, ?_⟩
  intro verifyRaw spk employees usage req now dateStr timeStr isoStr res st2 heq
  have heff := api_attendance_post_effect verifyRaw spk ⟨employees, a, usage⟩
    req now dateStr timeStr isoStr
  rw [heq] at heff
  obtain ⟨-, -, htri⟩ := heff
  rcases htri with hatt | ⟨emp_id, nm, qrts, hnone, hres, hatt⟩ |
    ⟨emp_id, nm, ex, hsome, hexout, hres, hatt⟩
  · -- ledger unchanged
    refine ⟨?_, ?_, ?_, ?_⟩
    · intro r hr
      exact ⟨r, by rw [hatt]; exact hr, rfl, rfl⟩
    · intro s hs hnew
      rw [hatt] at hs
      exact absurd ⟨rfl, rfl⟩ (hnew s hs)
    · intro r hr t hrt s hs h1 h2
      rw [hatt] at hs
      have hrs := uniqueKeys_eq hu hr hs ⟨h1.symm, h2.symm⟩
      rw [← hrs]
      exact hrt
    · intro r hr hrt s hs h1 h2 hsome
      rw [hatt] at hs
      have hrs := uniqueKeys_eq hu hr hs ⟨h1.symm, h2.symm⟩
      rw [← hrs] at hsome
      exact absurd hrt hsome
  · -- one fresh check-in record appended
    refine ⟨?_, ?_, ?_, ?_⟩
    · intro r hr
      exact ⟨r, by rw [hatt]; exact List.mem_append_left _ hr, rfl, rfl⟩
    · intro s hs hnew
      rw [hatt] at hs
      rcases List.mem_append.mp hs with hs1 | hs2
      · exact absurd ⟨rfl, rfl⟩ (hnew s hs1)
      · rcases List.mem_singleton.mp hs2 with rfl
        exact ⟨⟨nm, timeStr, hres⟩, rfl⟩
    · intro r hr t hrt s hs h1 h2
      rw [hatt] at hs
      rcases List.mem_append.mp hs with hs1 | hs2
      · have hrs := uniqueKeys_eq hu hr hs1 ⟨h1.symm, h2.symm⟩
        rw [← hrs]
        exact hrt
      · rcases List.mem_singleton.mp hs2 with rfl
        exfalso
        exact List.find?_eq_none.mp hnone r hr
          (recordMatches_iff.mpr ⟨h1.symm, h2.symm⟩)
    · intro r hr hrt s hs h1 h2 hsome
      rw [hatt] at hs
      rcases List.mem_append.mp hs with hs1 | hs2
      · have hrs := uniqueKeys_eq hu hr hs1 ⟨h1.symm, h2.symm⟩
        rw [← hrs] at hsome
        exact absurd hrt hsome
      · rcases List.mem_singleton.mp hs2 with rfl
        exact absurd rfl hsome
  · -- one open record closed out
    have hexmem : ex ∈ a := List.mem_of_find?_eq_some hsome
    have hexmatch : recordMatches emp_id dateStr ex = true := List.find?_some hsome
    refine ⟨?_, ?_, ?_, ?_⟩
    · intro r hr
      rw [hatt]
      simp only [checkoutLedger]
      exact exists_same_key_updateFirst (checkoutUpdate_key timeStr isoStr) hr
    · intro s hs hnew
      rw [hatt] at hs
      simp only [checkoutLedger] at hs
      rcases mem_updateFirst hs with hs1 | ⟨x, hx, hpx, rfl⟩
      · exact absurd ⟨rfl, rfl⟩ (hnew s hs1)
      · exact absurd ⟨(checkoutUpdate_key timeStr isoStr x).1.symm,
          (checkoutUpdate_key timeStr isoStr x).2.symm⟩ (hnew x hx)
    · intro r hr t hrt s hs h1 h2
      rw [hatt] at hs
      simp only [checkoutLedger] at hs
      rcases mem_updateFirst hs with hs1 | ⟨x, hx, hpx, rfl⟩
      · have hrs := uniqueKeys_eq hu hr hs1 ⟨h1.symm, h2.symm⟩
        rw [← hrs]
        exact hrt
      · exfalso
        have hxkey := recordMatches_iff.mp hpx
        have hexkey := recordMatches_iff.mp hexmatch
        have hxr : x = r := by
          apply uniqueKeys_eq hu hx hr
          constructor
          · rw [← h1, (checkoutUpdate_key timeStr isoStr x).1]
          · rw [← h2, (checkoutUpdate_key timeStr isoStr x).2]
        have hxex : x = ex := by
          apply uniqueKeys_eq hu hx hexmem
          exact ⟨hxkey.1.trans hexkey.1.symm, hxkey.2.trans hexkey.2.symm⟩
        rw [hxex] at hxr
        rw [← hxr] at hrt
        rw [hexout] at hrt
        exact Option.noConfusion hrt
    · intro r hr hrt s hs h1 h2 hsome2
      exact ⟨nm, ex.in_time, timeStr, hres⟩

theorem attendance_ledger_invariants_witness :
    UniqueKeys demoSt1.attendance ∧ UniqueKeys [] := by
  have h0 := (attendance_ledger_invariants [] ReachableAttendance.init).1
  have h1 := (attendance_ledger_invariants demoSt1.attendance
    (ReachableAttendance.step [] demoVerify demoSpk demoSt0.employees []
      demoReq 1005 "2026-10-12" "10:00:05" "2026-10-12T10:00:05"
      ReachableAttendance.init)).1
  exact ⟨h1, h0⟩


end WalletAttendance
